import Mathlib

/-!
Verification development for the hmcpl-library-cli repository.

The Python sources (src/hmcpl/parser.py, src/hmcpl/client.py,
src/hmcpl/models.py) are shallowly embedded below.  External libraries
(BeautifulSoup, httpx, playwright, the json module) are treated as
boundaries: a parsed HTML row is represented as a record holding the
results of the CSS-selector queries the code performs on it, a fetched
page is represented by its HTML text together with the selected rows,
and json.loads output is represented by an inductive JSON value type.
Python exceptions are modelled with Option and Except; a total Lean
function returning a list models a Python function that cannot raise.
Python string semantics used by the code (truthiness of empty strings,
the or-chains on optional attribute values, str.strip, str.lower on
ASCII, str.replace, slicing) are reproduced by the helpers below.
-/

/-- Whitespace test matching the characters Python str.strip removes
(space, tab, newline, carriage return, vertical tab, form feed). -/
def isWsC (c : Char) : Bool :=
  c.toNat == 32 || (9 ≤ c.toNat && c.toNat ≤ 13)

/-- ASCII lower-casing of one character, as Python str.lower does on
ASCII input (the payload keywords compared by the code are ASCII). -/
def toLowerC (c : Char) : Char :=
  if 65 ≤ c.toNat && c.toNat ≤ 90 then Char.ofNat (c.toNat + 32) else c

/-- Python str.lower restricted to ASCII. -/
def asciiLower (s : String) : String :=
  String.mk (s.data.map toLowerC)

/-- Removes leading and trailing whitespace from a character list. -/
def trimChars (l : List Char) : List Char :=
  (((l.dropWhile isWsC).reverse.dropWhile isWsC)).reverse

/-- Python str.strip with no argument. -/
def pyStrip (s : String) : String :=
  String.mk (trimChars s.data)

/-- Tests whether the pattern occurs at the head of the list. -/
def startsList : List Char → List Char → Bool
  | [], _ => true
  | _ :: _, [] => false
  | p :: ps, c :: cs => p == c && startsList ps cs

/-- Tests whether the pattern occurs anywhere in the list, as the
Python `in` operator does on strings. -/
def hasSub (p : List Char) : List Char → Bool
  | [] => startsList p []
  | c :: cs => startsList p (c :: cs) || hasSub p cs

/-- Python `pat in s` for strings. -/
def strHas (s pat : String) : Bool :=
  hasSub pat.data s.data

/-- Python `s.startswith(pat)`. -/
def strStarts (s pat : String) : Bool :=
  startsList pat.data s.data

/-- Truthiness of an optional string: Python treats None and the empty
string as falsy. -/
def truthyS : Option String → Bool
  | none => false
  | some s => !(s == "")

/-- Python `a or b` where a and b are optional strings: yields b
whenever a is None or empty. -/
def pyOrS (a b : Option String) : Option String :=
  match a with
  | some s => if s == "" then b else some s
  | none => b

/-- Numeric value of a decimal digit character. -/
def digitVal (c : Char) : Nat := c.toNat - 48

/-- Decimal digit test. -/
def isDigitC (c : Char) : Bool := 48 ≤ c.toNat && c.toNat ≤ 57

/-- Folds a digit run into a natural number. -/
def natOfDigits (l : List Char) : Nat :=
  l.foldl (fun acc c => acc * 10 + digitVal c) 0

/-- Leftmost maximal digit run, as re.search of one-or-more digits
followed by int() in the Python code; none when no digit occurs. -/
def firstNat : List Char → Option Nat
  | [] => none
  | c :: cs =>
    if isDigitC c then
      some (natOfDigits (c :: cs.takeWhile isDigitC))
    else
      firstNat cs

/-- First position holding four consecutive decimal digits, giving
their value: re.search of a four-digit group in the Python code. -/
def fourDigits : List Char → Option Nat
  | a :: b :: c :: d :: rest =>
    if isDigitC a && isDigitC b && isDigitC c && isDigitC d then
      some (natOfDigits [a, b, c, d])
    else
      fourDigits (b :: c :: d :: rest)
  | _ => none

/-- Grabs exactly n leading digits, returning them and the rest. -/
def grabDigits : Nat → List Char → Option (List Char × List Char)
  | 0, l => some ([], l)
  | _ + 1, [] => none
  | n + 1, c :: cs =>
    if isDigitC c then
      match grabDigits n cs with
      | some (g, r) => some (c :: g, r)
      | none => none
    else
      none

/-- Date-separator test for the slash-or-dash character class used by
the date regex in parser.py. -/
def isDateSep (c : Char) : Bool := c == '/' || c == '-'

/-- Tries to match digits, separator, digits, separator, four digits
at the head of the list with the given digit-group widths, returning
the matched text. -/
def dateAtWith (n1 n2 : Nat) (l : List Char) : Option (List Char) :=
  match grabDigits n1 l with
  | none => none
  | some (g1, r1) =>
    match r1 with
    | [] => none
    | s1 :: r2 =>
      if isDateSep s1 then
        match grabDigits n2 r2 with
        | none => none
        | some (g2, r3) =>
          match r3 with
          | [] => none
          | s2 :: r4 =>
            if isDateSep s2 then
              match grabDigits 4 r4 with
              | none => none
              | some (g3, _) => some (g1 ++ s1 :: g2 ++ s2 :: g3)
            else
              none
      else
        none

/-- All digit-width combinations in the backtracking order of the
regex: each one-or-two-digit group tries width two first. -/
def dateAt (l : List Char) : Option (List Char) :=
  match dateAtWith 2 2 l with
  | some g => some g
  | none =>
    match dateAtWith 2 1 l with
    | some g => some g
    | none =>
      match dateAtWith 1 2 l with
      | some g => some g
      | none => dateAtWith 1 1 l

/-- Models re.search for the pattern one-or-two digits, slash or dash,
one-or-two digits, slash or dash, four digits, used to pull a date out
of free text throughout parser.py: leftmost match, as a string. -/
def reSearchDate : List Char → Option String
  | [] => none
  | c :: cs =>
    match dateAt (c :: cs) with
    | some g => some (String.mk g)
    | none => reSearchDate cs

/-- First some in a list of options, as the first successful format in
the parse_date loop. -/
def firstSome : List (Option α) → Option α
  | [] => none
  | some a :: _ => some a
  | none :: rest => firstSome rest

/-- A calendar date as produced by datetime.strptime(...).date(). -/
structure PDate where
  y : Nat
  m : Nat
  d : Nat
deriving DecidableEq, Repr

/-- Gregorian leap-year rule used by datetime.date. -/
def isLeap (y : Nat) : Bool :=
  (y % 4 == 0 && y % 100 != 0) || y % 400 == 0

/-- Days in a month, as validated by the datetime.date constructor. -/
def daysInMonth (y m : Nat) : Nat :=
  if m == 2 then (if isLeap y then 29 else 28)
  else if m == 4 || m == 6 || m == 9 || m == 11 then 30
  else 31

/-- Validity check the datetime.date constructor performs; a violation
raises ValueError, which the parse_date loop treats like a failed
format match. -/
def validDate (y m d : Nat) : Bool :=
  1 ≤ y && y ≤ 9999 && 1 ≤ m && m ≤ 12 && 1 ≤ d && d ≤ daysInMonth y m

/-- Tokens of a strptime format string: a literal character, a
whitespace run, and the directives for month number, day number,
four-digit year, full month name and abbreviated month name. -/
inductive FTok where
  | lit (c : Char)
  | ws
  | tm
  | td
  | tY
  | tB
  | tb
deriving DecidableEq, Repr

/-- Rests of the input after consuming one or more whitespace
characters, every backtracking alternative of a whitespace run. -/
def wsRests : List Char → List (List Char)
  | [] => []
  | c :: rest => if isWsC c then rest :: wsRests rest else []

/-- Candidates for the month-number directive, in the alternation
order of the regex strptime builds: the two-digit forms 10-12 and
01-09, then a single digit 1-9. -/
def pmCands : List Char → List (Nat × List Char)
  | [] => []
  | [a] => if isDigitC a && a != '0' then [(digitVal a, [])] else []
  | a :: b :: rest =>
    (if a == '1' && (b == '0' || b == '1' || b == '2') then
      [(10 + digitVal b, rest)] else []) ++
    (if a == '0' && isDigitC b && b != '0' then
      [(digitVal b, rest)] else []) ++
    (if isDigitC a && a != '0' then [(digitVal a, b :: rest)] else [])

/-- Candidates for the day-number directive, alternation order 30-31,
10-29, 01-09, then a single digit 1-9. -/
def pdCands : List Char → List (Nat × List Char)
  | [] => []
  | [a] => if isDigitC a && a != '0' then [(digitVal a, [])] else []
  | a :: b :: rest =>
    (if a == '3' && (b == '0' || b == '1') then
      [(30 + digitVal b, rest)] else []) ++
    (if (a == '1' || a == '2') && isDigitC b then
      [(digitVal a * 10 + digitVal b, rest)] else []) ++
    (if a == '0' && isDigitC b && b != '0' then
      [(digitVal b, rest)] else []) ++
    (if isDigitC a && a != '0' then [(digitVal a, b :: rest)] else [])

/-- Exactly four digits for the year directive. -/
def pYCands : List Char → List (Nat × List Char)
  | a :: b :: c :: d :: rest =>
    if isDigitC a && isDigitC b && isDigitC c && isDigitC d then
      [(natOfDigits [a, b, c, d], rest)]
    else
      []
  | _ => []

/-- Case-insensitive removal of a lowercase name from the head of the
input, as the ignore-case month-name alternatives of strptime. -/
def stripName : List Char → List Char → Option (List Char)
  | [], l => some l
  | _ :: _, [] => none
  | n :: ns, c :: cs => if toLowerC c == n then stripName ns cs else none

/-- Full month names with their month numbers. -/
def monthNames : List (List Char × Nat) :=
  [("january".data, 1), ("february".data, 2), ("march".data, 3),
   ("april".data, 4), ("may".data, 5), ("june".data, 6),
   ("july".data, 7), ("august".data, 8), ("september".data, 9),
   ("october".data, 10), ("november".data, 11), ("december".data, 12)]

/-- Abbreviated month names with their month numbers. -/
def monthAbbrs : List (List Char × Nat) :=
  [("jan".data, 1), ("feb".data, 2), ("mar".data, 3), ("apr".data, 4),
   ("may".data, 5), ("jun".data, 6), ("jul".data, 7), ("aug".data, 8),
   ("sep".data, 9), ("oct".data, 10), ("nov".data, 11), ("dec".data, 12)]

/-- Candidates for a month-name directive over a name table. -/
def nameCands (table : List (List Char × Nat)) (l : List Char) :
    List (Nat × List Char) :=
  table.filterMap (fun p =>
    match stripName p.1 l with
    | some rest => some (p.2, rest)
    | none => none)

/-- All ways one format token can consume a head of the input,
yielding an optional numeric value and the rest. -/
def tokCands : FTok → List Char → List (Option Nat × List Char)
  | .lit c, [] => [] ++ (if c == ' ' then [] else [])
  | .lit c, x :: rest => if x == c then [(none, rest)] else []
  | .ws, l => (wsRests l).map (fun r => (none, r))
  | .tm, l => (pmCands l).map (fun p => (some p.1, p.2))
  | .td, l => (pdCands l).map (fun p => (some p.1, p.2))
  | .tY, l => (pYCands l).map (fun p => (some p.1, p.2))
  | .tB, l => (nameCands monthNames l).map (fun p => (some p.1, p.2))
  | .tb, l => (nameCands monthAbbrs l).map (fun p => (some p.1, p.2))

/-- Parsed field state: month, day, year. -/
structure FSt where
  m : Option Nat := none
  d : Option Nat := none
  y : Option Nat := none
deriving DecidableEq, Repr

/-- Stores the value a directive matched into the field state. -/
def updSt (t : FTok) (v : Option Nat) (st : FSt) : FSt :=
  match t, v with
  | .tm, some n => { st with m := some n }
  | .td, some n => { st with d := some n }
  | .tY, some n => { st with y := some n }
  | .tB, some n => { st with m := some n }
  | .tb, some n => { st with m := some n }
  | _, _ => st

/-- Runs a format over the input with backtracking, returning the
field states of every full match (strptime requires the match to
reach the end of the string). -/
def runFmt : List FTok → List Char → FSt → List FSt
  | [], l, st => if l.isEmpty then [st] else []
  | t :: ts, l, st =>
    ((tokCands t l).map (fun p => runFmt ts p.2 (updSt t p.1 st))).flatten

/-- datetime.strptime for one of the formats in the parse_date list:
some date on a full match that passes the datetime.date validity
check, none otherwise (a ValueError makes the loop try the next
format, which is indistinguishable from no match). -/
def tryFormat (fmt : List FTok) (l : List Char) : Option PDate :=
  match (runFmt fmt l {}).head? with
  | some st =>
    match st.m, st.d, st.y with
    | some m, some d, some y =>
      if validDate y m d then some { y := y, m := m, d := d } else none
    | _, _, _ => none
  | none => none

/-- The format list of parse_date in parser.py, in order. -/
def dateFormats : List (List FTok) :=
  [[.tm, .lit '/', .td, .lit '/', .tY],
   [.tm, .lit '-', .td, .lit '-', .tY],
   [.tY, .lit '-', .tm, .lit '-', .td],
   [.tB, .ws, .td, .lit ',', .ws, .tY],
   [.tb, .ws, .td, .lit ',', .ws, .tY],
   [.tb, .lit '.', .ws, .td, .lit ',', .ws, .tY]]

/-- parser.py parse_date: None for a missing or empty string, then
the stripped text is tried against each format in order. -/
def parse_date (s : Option String) : Option PDate :=
  match s with
  | none => none
  | some str =>
    if str == "" then none
    else
      firstSome (dateFormats.map (fun f => tryFormat f (pyStrip str).data))

/-- models.py Checkout: a checked out library item. -/
structure Checkout where
  id : String
  title : String
  author : Option String := none
  due_date : Option PDate := none
  format : Option String := none
  can_renew : Bool := true
  times_renewed : Int := 0
  source : String := "ils"
  cover_url : Option String := none
deriving DecidableEq, Repr

/-- models.py Hold: a hold on a library item. -/
structure Hold where
  id : String
  title : String
  author : Option String := none
  status : String := "pending"
  position : Option Int := none
  pickup_location : Option String := none
  expiration_date : Option PDate := none
  available_date : Option PDate := none
  format : Option String := none
  cover_url : Option String := none
  freeze_until : Option PDate := none
  is_frozen : Bool := false
deriving DecidableEq, Repr

/-- models.py SearchResult: a search result from the catalog. -/
structure SearchResult where
  id : String
  title : String
  author : Option String := none
  format : Option String := none
  publication_year : Option Int := none
  availability : Option String := none
  cover_url : Option String := none
  description : Option String := none
deriving DecidableEq, Repr

/-- models.py AccountSummary with its defaulting rules; monetary
amounts are modelled as rationals. -/
structure AccountSummary where
  num_checked_out : Int := 0
  num_overdue : Int := 0
  num_holds : Int := 0
  num_available_holds : Int := 0
  total_fines : ℚ := 0
  expires : Option PDate := none
  name : Option String := none
deriving DecidableEq, Repr

/-- models.py RenewResult: outcome of renewing an item. -/
structure RenewResult where
  success : Bool
  message : String
  new_due_date : Option PDate := none
deriving DecidableEq, Repr

/-- Hold status mapping of parse_holds_html (parser.py lines 150-161),
applied to the lowered status-element text; there is no branch for
expired text. -/
def holdStatusAjax (raw : String) : String :=
  let t := asciiLower raw
  if strHas t "available" || strHas t "ready" then "available"
  else if strHas t "transit" then "in_transit"
  else if strHas t "suspend" || strHas t "frozen" then "suspended"
  else "pending"

/-- Hold status mapping of parse_holds_page (parser.py lines 490-505),
applied to the lowered status label value; this is the one site with
an expired branch. -/
def holdStatusPage (raw : String) : String :=
  let t := asciiLower raw
  if strHas t "available" || strHas t "ready" then "available"
  else if strHas t "transit" then "in_transit"
  else if strHas t "suspend" || strHas t "frozen" then "suspended"
  else if strHas t "expired" then "expired"
  else "pending"

/-- Hold status mapping of the JSON items path of get_holds
(client.py lines 536-544), applied to the lowered status field; like
the AJAX-HTML path it has no expired branch. -/
def holdStatusJson (raw : String) : String :=
  let t := asciiLower raw
  if strHas t "available" || strHas t "ready" then "available"
  else if strHas t "transit" then "in_transit"
  else if strHas t "suspend" || strHas t "frozen" then "suspended"
  else "pending"

/-- Follows the wording of the specification only, for comparison
with the code: precedence available/ready, then transit, then
suspend/frozen, then expired, then pending, over the lowered text. -/
def specHoldStatus (raw : String) : String :=
  let t := asciiLower raw
  if strHas t "available" || strHas t "ready" then "available"
  else if strHas t "transit" then "in_transit"
  else if strHas t "suspend" || strHas t "frozen" then "suspended"
  else if strHas t "expired" then "expired"
  else "pending"

/-- The for-row-in-rows loop shared by every extraction function in
parser.py: each row is fed to the per-row extractor inside a
try-except block; a row whose extraction raises (modelled by none) is
skipped and the loop continues.  The counter is the length of the
accumulator so far, used to synthesize positional ids.  The loop
itself cannot raise: its result type is a plain list. -/
def rowLoop (f : Nat → ρ → Option α) : List ρ → Nat → List α
  | [], _ => []
  | r :: rs, n =>
    match f n r with
    | some a => a :: rowLoop f rs (n + 1)
    | none => rowLoop f rs n

/-- Instrumented variant of rowLoop pairing each produced record with
the counter value and row it came from; used to state that the output
is exactly one record per successfully extracted row in source
order. -/
def rowLoopKept (f : Nat → ρ → Option α) : List ρ → Nat → List (Nat × ρ × α)
  | [], _ => []
  | r :: rs, n =>
    match f n r with
    | some a => (n, r, a) :: rowLoopKept f rs (n + 1)
    | none => rowLoopKept f rs n

/-- Python `s.split("|")[-1]`: the text after the last bar. -/
def lastBar (s : String) : String :=
  String.mk ((s.data.reverse.takeWhile (fun c => !(c == '|'))).reverse)

/-- Python `s.replace(pat, "")`: removes every non-overlapping
occurrence of the pattern, scanning left to right. -/
def replaceAll (pat : List Char) (l : List Char) : List Char :=
  match l with
  | [] => []
  | c :: cs =>
    if !pat.isEmpty && startsList pat (c :: cs) then
      replaceAll pat ((c :: cs).drop pat.length)
    else
      c :: replaceAll pat cs
termination_by l.length
decreasing_by
  · simp only [List.length_drop, List.length_cons]
    rename_i hne
    simp only [Bool.and_eq_true, Bool.not_eq_true] at hne
    have : pat.length ≠ 0 := by
      intro h0
      exact absurd (List.isEmpty_iff_length_eq_zero.mpr h0) (by simpa using hne.1)
    omega
  · simp

/-- re.sub removing "Show Edition" and the rest of its line, as the
format clean-up in parse_search_results_html: the dot of the regex
does not cross a newline, and substitution resumes at the newline. -/
def subSE (l : List Char) : List Char :=
  match l with
  | [] => []
  | c :: cs =>
    if startsList "Show Edition".data (c :: cs) then
      subSE (((c :: cs).drop 12).dropWhile (fun x => !(x == '\n')))
    else
      c :: subSE cs
termination_by l.length
decreasing_by
  · have hgen : ∀ (p : Char → Bool) (m : List Char),
        (m.dropWhile p).length ≤ m.length := by
      intro p m
      induction m with
      | nil => simp [List.dropWhile]
      | cons x xs ih =>
        simp only [List.dropWhile]
        cases p x
        · simp
        · exact Nat.le_succ_of_le ih
    have h1 := hgen (fun x => !(x == '\n')) ((c :: cs).drop 12)
    simp only [List.length_drop, List.length_cons] at h1 ⊢
    omega
  · simp

/-- The author clean-up shared by the extraction functions: when the
author text is truthy and starts with "by " after lowering, the first
three characters are sliced off. -/
def stripByAuthor (a : Option String) : Option String :=
  match a with
  | none => none
  | some s =>
    if !(s == "") && strStarts (asciiLower s) "by " then
      some (String.mk (s.data.drop 3))
    else
      some s

/-- One row selected by parse_holds_html (selector .holdEntry,
.ilsHoldEntry, tr.hold-row, .result), holding the results of the
queries the code performs on it.  idElem carries the data-id,
data-holdid and value attributes of the first id-bearing element;
checkbox carries value and id of the fallback checkbox; the text
fields are the stripped text of the matched elements (BeautifulSoup
get_text with strip=True); frozenElem tells whether a freeze
indicator element matched; coverElem is the src attribute of a
matched cover image. -/
structure HoldRowA where
  idElem : Option (Option String × Option String × Option String) := none
  checkbox : Option (Option String × Option String) := none
  titleText : Option String := none
  authorText : Option String := none
  statusText : Option String := none
  posText : Option String := none
  pickupText : Option String := none
  expText : Option String := none
  frozenElem : Bool := false
  coverElem : Option (Option String) := none
deriving DecidableEq, Repr

/-- The try-block body of parse_holds_html for one row (parser.py
lines 125-206); k is the number of holds accumulated so far. -/
def extractHoldACore (k : Nat) (row : HoldRowA) : Hold :=
  let id0 : Option String :=
    match row.idElem with
    | some (a, b, c) => pyOrS a (pyOrS b c)
    | none => none
  let id1 : Option String :=
    if truthyS id0 then id0
    else
      match row.checkbox with
      | some (v, i) => pyOrS v i
      | none => id0
  let holdId : String :=
    if truthyS id1 then id1.getD "" else "hold-" ++ toString k
  let status : String :=
    match row.statusText with
    | some t => holdStatusAjax t
    | none => "pending"
  { id := holdId,
    title := row.titleText.getD "Unknown Title",
    author := stripByAuthor row.authorText,
    status := status,
    position :=
      match row.posText with
      | some t => (firstNat t.data).map (fun n => (n : Int))
      | none => none,
    pickup_location := row.pickupText,
    expiration_date :=
      match row.expText with
      | some t =>
        match reSearchDate t.data with
        | some g => parse_date (some g)
        | none => none
      | none => none,
    is_frozen := (strHas status "suspend" || strHas status "frozen")
      || row.frozenElem,
    cover_url := row.coverElem.join }

/-- Per-row extractor of parse_holds_html as fed to the row loop; the
body cannot raise, so it always succeeds. -/
def extractHoldA (k : Nat) (row : HoldRowA) : Option Hold :=
  some (extractHoldACore k row)

/-- parser.py parse_holds_html over the selected rows. -/
def parse_holds_html (rows : List HoldRowA) : List Hold :=
  rowLoop extractHoldA rows 0

/-- One row selected by parse_checkouts_html (selector .checkoutEntry,
.ilsCheckoutEntry, tr.checkout-row, .result).  dueElem carries the
data-due attribute and the element text; renewElem carries the
disabled attribute and class list of a renew control. -/
structure CheckoutRowA where
  idElem : Option (Option String × Option String × Option String) := none
  checkbox : Option (Option String × Option String) := none
  titleText : Option String := none
  authorText : Option String := none
  dueElem : Option (Option String × String) := none
  formatText : Option String := none
  renewElem : Option (Option String × List String) := none
  noRenew : Bool := false
  coverElem : Option (Option String) := none
deriving DecidableEq, Repr

/-- The try-block body of parse_checkouts_html for one row (parser.py
lines 44-110). -/
def extractCheckoutACore (k : Nat) (row : CheckoutRowA) : Checkout :=
  let id0 : Option String :=
    match row.idElem with
    | some (a, b, c) => pyOrS a (pyOrS b c)
    | none => none
  let id1 : Option String :=
    if truthyS id0 then id0
    else
      match row.checkbox with
      | some (v, i) => pyOrS v i
      | none => id0
  let itemId : String :=
    if truthyS id1 then id1.getD "" else "checkout-" ++ toString k
  { id := itemId,
    title := row.titleText.getD "Unknown Title",
    author := stripByAuthor row.authorText,
    due_date :=
      match row.dueElem with
      | some (dd, txt) =>
        match reSearchDate ((pyOrS dd (some txt)).getD "").data with
        | some g => parse_date (some g)
        | none => none
      | none => none,
    format := row.formatText,
    can_renew :=
      (match row.renewElem with
       | some (dis, cls) => !(truthyS dis || cls.contains "disabled")
       | none => true) && !row.noRenew,
    cover_url := row.coverElem.join }

/-- Per-row extractor of parse_checkouts_html as fed to the row loop. -/
def extractCheckoutA (k : Nat) (row : CheckoutRowA) : Option Checkout :=
  some (extractCheckoutACore k row)

/-- parser.py parse_checkouts_html over the selected rows. -/
def parse_checkouts_html (rows : List CheckoutRowA) : List Checkout :=
  rowLoop extractCheckoutA rows 0

/-- Scans a result-label list for the first label whose lowered text
contains one of the keys and that has a following result-value
sibling, returning that value text: the loops in the full-page
parsers that break only once a value was found. -/
def findLabelVal (keys : List String) :
    List (String × Option String) → Option String
  | [] => none
  | (lab, v) :: rest =>
    if keys.any (fun k => strHas (asciiLower lab) k) then
      match v with
      | some t => some t
      | none => findLabelVal keys rest
    else
      findLabelVal keys rest

/-- Scans a result-label list for the first label whose lowered text
contains one of the keys, returning its optional value sibling: the
loops in the full-page parsers that break at the first matching label
whether or not a value follows. -/
def findLabelFirst (keys : List String) :
    List (String × Option String) → Option (Option String)
  | [] => none
  | (lab, v) :: rest =>
    if keys.any (fun k => strHas (asciiLower lab) k) then some v
    else findLabelFirst keys rest

/-- The publication-year label scan of parse_search_results_html: it
breaks only when a four-digit group is found, otherwise keeps
scanning further labels. -/
def findYearLabel : List (String × Option String) → Option Nat
  | [] => none
  | (lab, v) :: rest =>
    if strHas (asciiLower lab) "pub" || strHas (asciiLower lab) "year" then
      match v with
      | some t =>
        match fourDigits t.data with
        | some y => some y
        | none => findYearLabel rest
      | none => findYearLabel rest
    else
      findYearLabel rest

/-- One row selected by parse_checkouts_page (selector .result,
.listEntry, .ilsCheckoutEntry, .checkoutEntry).  dataId and rowId are
the data-id and id attributes of the row element; checkbox carries
value and name of the fallback input; labels is the list of
result-label texts paired with the text of their following
result-value sibling, in document order; dueAlt is the text of a
.dueDate element; renewBtn carries the disabled attribute of a
matched renew button. -/
structure CheckoutRowP where
  dataId : Option String := none
  rowId : Option String := none
  checkbox : Option (Option String × Option String) := none
  titleText : Option String := none
  labels : List (String × Option String) := []
  authorAlt : Option String := none
  dueAlt : Option String := none
  formatText : Option String := none
  renewBtn : Option (Option String) := none
  noRenew : Bool := false
  coverElem : Option (Option String) := none
deriving DecidableEq, Repr

/-- The try-block body of parse_checkouts_page for one row (parser.py
lines 366-446). -/
def extractCheckoutPCore (k : Nat) (row : CheckoutRowP) : Checkout :=
  let id0 : Option String := pyOrS row.dataId (some (row.rowId.getD ""))
  let id1 : Option String :=
    if !truthyS id0 || strStarts (id0.getD "") "listEntry" then
      match row.checkbox with
      | some (v, nm) => pyOrS v (some (lastBar (nm.getD "")))
      | none => id0
    else
      id0
  let itemId : String :=
    if truthyS id1 then id1.getD "" else "checkout-" ++ toString k
  let aL : Option String := findLabelVal ["author"] row.labels
  let d0 : Option PDate :=
    match findLabelVal ["due"] row.labels with
    | some t =>
      match reSearchDate t.data with
      | some g => parse_date (some g)
      | none => parse_date (some t)
    | none => none
  { id := itemId,
    title := row.titleText.getD "Unknown Title",
    author := stripByAuthor (if truthyS aL then aL else row.authorAlt),
    due_date :=
      match d0 with
      | some d => some d
      | none =>
        match row.dueAlt with
        | some t =>
          match reSearchDate t.data with
          | some g => parse_date (some g)
          | none => none
        | none => none,
    format := row.formatText,
    can_renew :=
      (match row.renewBtn with
       | some dis => !truthyS dis
       | none => true) && !row.noRenew,
    cover_url := row.coverElem.join }

/-- Per-row extractor of parse_checkouts_page as fed to the row loop. -/
def extractCheckoutP (k : Nat) (row : CheckoutRowP) : Option Checkout :=
  some (extractCheckoutPCore k row)

/-- parser.py parse_checkouts_page over the selected rows. -/
def parse_checkouts_page (rows : List CheckoutRowP) : List Checkout :=
  rowLoop extractCheckoutP rows 0

/-- One row selected by parse_holds_page (selector .result,
.listEntry, .ilsHoldEntry, .holdEntry). -/
structure HoldRowP where
  dataId : Option String := none
  rowId : Option String := none
  checkbox : Option (Option String × Option String) := none
  titleText : Option String := none
  labels : List (String × Option String) := []
  authorAlt : Option String := none
  pickupElem : Option String := none
  expElem : Option String := none
  frozenElem : Bool := false
  coverElem : Option (Option String) := none
deriving DecidableEq, Repr

/-- The try-block body of parse_holds_page for one row (parser.py
lines 461-571). -/
def extractHoldPCore (k : Nat) (row : HoldRowP) : Hold :=
  let id0 : Option String := pyOrS row.dataId (some (row.rowId.getD ""))
  let id1 : Option String :=
    if !truthyS id0 || strStarts (id0.getD "") "listEntry" then
      match row.checkbox with
      | some (v, nm) => pyOrS v (some (lastBar (nm.getD "")))
      | none => id0
    else
      id0
  let holdId : String :=
    if truthyS id1 then id1.getD "" else "hold-" ++ toString k
  let aL : Option String := findLabelVal ["author"] row.labels
  let status : String :=
    match findLabelFirst ["status"] row.labels with
    | some (some t) => holdStatusPage t
    | _ => "pending"
  let e0 : Option PDate :=
    match row.expElem with
    | some t =>
      match reSearchDate t.data with
      | some g => parse_date (some g)
      | none => none
    | none => none
  { id := holdId,
    title := row.titleText.getD "Unknown Title",
    author := stripByAuthor (if truthyS aL then aL else row.authorAlt),
    status := status,
    position :=
      match findLabelFirst ["position", "queue"] row.labels with
      | some (some t) => (firstNat t.data).map (fun n => (n : Int))
      | _ => none,
    pickup_location :=
      if truthyS row.pickupElem then row.pickupElem
      else findLabelVal ["pickup", "location"] row.labels,
    expiration_date :=
      match e0 with
      | some d => some d
      | none =>
        match findLabelVal ["expire", "expiration"] row.labels with
        | some t =>
          match reSearchDate t.data with
          | some g => parse_date (some g)
          | none => parse_date (some t)
        | none => none,
    is_frozen := (strHas status "suspend" || strHas status "frozen")
      || row.frozenElem,
    cover_url := row.coverElem.join }

/-- Per-row extractor of parse_holds_page as fed to the row loop. -/
def extractHoldP (k : Nat) (row : HoldRowP) : Option Hold :=
  some (extractHoldPCore k row)

/-- parser.py parse_holds_page over the selected rows. -/
def parse_holds_page (rows : List HoldRowP) : List Hold :=
  rowLoop extractHoldP rows 0

/-- The alternation of record types in the record-id regex of
parse_search_results_html. -/
def recAlt : List (List Char) :=
  ["GroupedWork".data, "Record".data, "Hoopla".data, "OverDrive".data]

/-- Tries each record-type word at a position just after a slash,
capturing the following non-empty run of characters other than slash
and question mark. -/
def recIdTry : List (List Char) → List Char → Option (List Char)
  | [], _ => none
  | w :: ws, rest =>
    if startsList w rest then
      match rest.drop w.length with
      | '/' :: tail =>
        let cap := tail.takeWhile (fun c => !(c == '/' || c == '?'))
        if cap.isEmpty then recIdTry ws rest else some cap
      | _ => recIdTry ws rest
    else
      recIdTry ws rest

/-- One position of the record-id regex: a slash, a record-type word,
a slash, then the captured id. -/
def recIdAt : List Char → Option (List Char)
  | '/' :: rest => recIdTry recAlt rest
  | _ => none

/-- re.search for the record-id pattern over an href, leftmost match,
returning the captured id group. -/
def reRecordId : List Char → Option String
  | [] => none
  | c :: cs =>
    match recIdAt (c :: cs) with
    | some g => some (String.mk g)
    | none => reRecordId cs

/-- One row selected by parse_search_results_html (selector
.resultsList).  rowId is the id attribute of the row; linkElem is the
href of a matched title link; labels as in the page parsers. -/
structure SearchRow where
  rowId : Option String := none
  linkElem : Option (Option String) := none
  titleText : Option String := none
  labels : List (String × Option String) := []
  authorAlt : Option String := none
  formatText : Option String := none
  availText : Option String := none
  coverElem : Option (Option String) := none
deriving DecidableEq, Repr

/-- The try-block body of parse_search_results_html for one row
(parser.py lines 222-307). -/
def extractSearchCore (k : Nat) (row : SearchRow) : SearchResult :=
  let rid : String := row.rowId.getD ""
  let id0 : Option String :=
    if strStarts rid "groupedRecord" then
      some (String.mk (replaceAll "groupedRecord".data rid.data))
    else
      none
  let id1 : Option String :=
    if truthyS id0 then id0
    else
      match row.linkElem with
      | some href => reRecordId ((href.getD "").data)
      | none => id0
  let recordId : String :=
    if truthyS id1 then id1.getD "" else "result-" ++ toString k
  let aL : Option String := findLabelVal ["author"] row.labels
  { id := recordId,
    title := row.titleText.getD "Unknown Title",
    author := if truthyS aL then aL else row.authorAlt,
    format :=
      match row.formatText with
      | some t =>
        let f := pyStrip (String.mk (subSE t.data))
        if f == "" then none else some f
      | none => none,
    publication_year := (findYearLabel row.labels).map (fun n => (n : Int)),
    availability := row.availText,
    cover_url := row.coverElem.join }

/-- Per-row extractor of parse_search_results_html as fed to the row
loop. -/
def extractSearch (k : Nat) (row : SearchRow) : Option SearchResult :=
  some (extractSearchCore k row)

/-- parser.py parse_search_results_html over the selected rows. -/
def parse_search_results_html (rows : List SearchRow) : List SearchResult :=
  rowLoop extractSearch rows 0

/-- client.py search (lines 567-591): the rendered results page is
parsed in full, then the list is truncated to the limit by a slice.
The browser navigation that produces the page content is the external
boundary; rows are the selected result rows of that content. -/
def client_search (rows : List SearchRow) (limit : Nat) : List SearchResult :=
  (parse_search_results_html rows).take limit

/-- One item of the JSON holds array consumed by get_holds (client.py
lines 534-558); each field is present (some) or absent (none), with
the value types the endpoint delivers. -/
structure HoldItem where
  itemId : Option String := none
  holdId : Option String := none
  title : Option String := none
  author : Option String := none
  status : Option String := none
  position : Option Int := none
  pickupLocation : Option String := none
  expirationDate : Option String := none
  frozen : Option Bool := none
  coverUrl : Option String := none
deriving DecidableEq, Repr

/-- The loop body of the JSON items path of get_holds (client.py
lines 536-558): note that is_frozen is taken from the frozen field
alone, with default False, independently of the derived status. -/
def extractHoldJson (it : HoldItem) : Hold :=
  { id := it.itemId.getD (it.holdId.getD ""),
    title := it.title.getD "Unknown",
    author := it.author,
    status := holdStatusJson (it.status.getD ""),
    position := it.position,
    pickup_location := it.pickupLocation,
    expiration_date := parse_date it.expirationDate,
    is_frozen := it.frozen.getD false,
    cover_url := it.coverUrl }

/-- The non-headless body of get_holds (client.py lines 524-565): the
items array is mapped in order; only when it produced nothing is the
HTML fallback field parsed. -/
def get_holds_ajax (items : List HoldItem)
    (htmlRows : Option (List HoldRowA)) : List Hold :=
  let hs := items.map extractHoldJson
  if hs.isEmpty then
    match htmlRows with
    | some rows => parse_holds_html rows
    | none => hs
  else
    hs

/-- The Cloudflare-challenge test of get_holds (client.py line 514):
both words must occur in the lowered page HTML. -/
def isBlockedPage (html : String) : Bool :=
  strHas (asciiLower html) "cloudflare" && strHas (asciiLower html) "challenge"

/-- The headless body of get_holds (client.py lines 493-522): on a
detected challenge page it returns the empty list and emits a warning
on stderr (the Bool component); otherwise the rendered rows are
parsed with no warning. -/
def get_holds_headless (html : String) (rows : List HoldRowP) :
    List Hold × Bool :=
  if isBlockedPage html then ([], true) else (parse_holds_page rows, false)

/-- The headless body of get_checkouts (client.py lines 434-454): the
rendered page is always parsed; there is no challenge test and no
warning side channel in this function. -/
def get_checkouts_headless (_html : String) (rows : List CheckoutRowP) :
    List Checkout × Bool :=
  (parse_checkouts_page rows, false)

/-- The JSON body of a successful AJAX renewal response (client.py
lines 663-667), with the optional fields the code reads. -/
structure AjaxRenewResp where
  success : Option Bool := none
  message : Option String := none
  newDueDate : Option String := none
deriving DecidableEq, Repr

/-- Building a RenewResult from a parsed AJAX renewal response. -/
def renewFromAjax (d : AjaxRenewResp) : RenewResult :=
  { success := d.success.getD false,
    message := d.message.getD "",
    new_due_date := parse_date d.newDueDate }

/-- client.py renew_item (lines 649-688).  headless is the replay
mode flag.  ajax is the outcome of the request-channel attempt: some
parsed body when the POST returned status 200 with parseable JSON,
none when it did not (the request channel is only consulted outside
replay mode).  browserExn carries the text of an exception raised
inside the browser fallback try-block, if any; btnFound tells whether
a renew control matched in the rendered page; alertText is the text
of a success alert appearing after the click.  Note the source shape:
when the button is clicked but no alert appears, control falls
through to the same not-found failure result. -/
def renew_item (headless : Bool) (ajax : Option AjaxRenewResp)
    (browserExn : Option String) (btnFound : Bool)
    (alertText : Option String) : RenewResult :=
  match (if headless then none else ajax) with
  | some d => renewFromAjax d
  | none =>
    match browserExn with
    | some e => { success := false, message := "Renewal failed: " ++ e }
    | none =>
      match (if btnFound then alertText else none) with
      | some msg => { success := true, message := pyStrip msg }
      | none =>
        { success := false,
          message := "Could not find renew button for this item" }

/-- A fines value as delivered by the summary JSON: a string, a
number (rationals model the exact decimal amounts involved), or
null. -/
inductive FinesVal where
  | fstr (s : String)
  | fnum (q : ℚ)
  | fnull
deriving DecidableEq, Repr

/-- Removes every dollar sign and comma, the two replace calls of
get_account_summary (client.py line 382). -/
def stripDollarComma (s : String) : String :=
  String.mk (s.data.filter (fun c => !(c == '$' || c == ',')))

/-- Python float() on a cleaned string, modelled as a decimal parser:
optional sign, digits with an optional fractional part (at least one
digit overall), optional exponent.  The result is (mantissa,
fractional digits, exponent); none models ValueError.  The inf and
nan spellings and underscore separators accepted by float() are not
used by fines strings and are outside the model. -/
def pyFloatCore (l : List Char) : Option (Int × Nat × Int) :=
  let l := trimChars l
  let (sgn, l1) : Int × List Char :=
    match l with
    | '-' :: rest => (-1, rest)
    | '+' :: rest => (1, rest)
    | _ => (1, l)
  let intPart := l1.takeWhile isDigitC
  let r1 := l1.dropWhile isDigitC
  let (fracPart, r2) : List Char × List Char :=
    match r1 with
    | '.' :: rest => (rest.takeWhile isDigitC, rest.dropWhile isDigitC)
    | _ => ([], r1)
  if (intPart ++ fracPart).isEmpty then none
  else
    let mant : Int := sgn * (natOfDigits (intPart ++ fracPart) : Int)
    let k := fracPart.length
    match r2 with
    | [] => some (mant, k, 0)
    | e :: rest =>
      if e == 'e' || e == 'E' then
        let (esgn, r3) : Int × List Char :=
          match rest with
          | '-' :: q => (-1, q)
          | '+' :: q => (1, q)
          | _ => (1, rest)
        let eDigits := r3.takeWhile isDigitC
        if eDigits.isEmpty || !(r3.dropWhile isDigitC).isEmpty then none
        else some (mant, k, esgn * (natOfDigits eDigits : Int))
      else
        none

/-- Python float() on a string. -/
def pyFloat (s : String) : Option (Int × Nat × Int) :=
  pyFloatCore s.data

/-- Ten to an integer power, as a rational. -/
def tenPowZ (i : Int) : ℚ :=
  if 0 ≤ i then ((10 : ℚ) ^ i.toNat) else 1 / ((10 : ℚ) ^ (-i).toNat)

/-- Numeric value of a parsed float. -/
def floatVal (p : Int × Nat × Int) : ℚ :=
  (p.1 : ℚ) * tenPowZ (p.2.2 - (p.2.1 : Int))

/-- The fines-string normalization of get_account_summary (client.py
lines 381-386): strip the dollar sign and commas, parse as a float,
and default to zero when parsing fails. -/
def normalize_fines (s : String) : ℚ :=
  match pyFloat (stripDollarComma s) with
  | some p => floatVal p
  | none => 0

/-- Evaluating a fines value as the code does: strings go through
normalization, numbers through float(x or 0) which preserves the
value, and null becomes zero. -/
def coerceFines (v : FinesVal) : ℚ :=
  match v with
  | .fstr s => normalize_fines s
  | .fnum q => q
  | .fnull => 0

/-- The summary object of the getMenuDataIls JSON response as read by
get_account_summary (client.py lines 368-398): each field is present
or absent. -/
structure SummaryData where
  numCheckedOut : Option Int := none
  numOverdue : Option Int := none
  numHolds : Option Int := none
  numAvailableHolds : Option Int := none
  totalFines : Option FinesVal := none
  finesField : Option FinesVal := none
  expires : Option String := none
  expirationDate : Option String := none
  name : Option String := none
  displayName : Option String := none
deriving DecidableEq, Repr

/-- client.py get_account_summary, non-headless path (lines 363-398):
counters default to 0 when absent and are otherwise taken from the
payload unchanged (int() on a payload integer), fines go through
coercion with the totalFines-then-fines key preference, the
expiration string is parsed only when truthy, and the name falls back
from name to displayName. -/
def get_account_summary_json (d : SummaryData) : AccountSummary :=
  let expStr : Option String :=
    match d.expires with
    | some v => some v
    | none => d.expirationDate
  { num_checked_out := d.numCheckedOut.getD 0,
    num_overdue := d.numOverdue.getD 0,
    num_holds := d.numHolds.getD 0,
    num_available_holds := d.numAvailableHolds.getD 0,
    total_fines := coerceFines (d.totalFines.getD (d.finesField.getD (.fnum 0))),
    expires := if truthyS expStr then parse_date expStr else none,
    name :=
      match d.name with
      | some v => some v
      | none => d.displayName }

/-- A JSON value as produced by json.loads, plus a constructor for
dictionaries built at runtime by the cookie comprehension, whose keys
need not be strings. -/
inductive J where
  | null
  | jb (b : Bool)
  | jn (n : Int)
  | js (s : String)
  | ja (l : List J)
  | jo (l : List (String × J))
  | pdict (l : List (J × J))

/-- The Python exceptions _load_cookies can meet beyond the JSON
decode error: only KeyError is caught by its except clauses. -/
inductive PyErr where
  | attrError
  | typeError
  | keyError
deriving DecidableEq, Repr

/-- Python truthiness of a JSON value. -/
def jTruthy : J → Bool
  | .null => false
  | .jb b => b
  | .jn n => !(n == 0)
  | .js s => !(s == "")
  | .ja l => !l.isEmpty
  | .jo l => !l.isEmpty
  | .pdict l => !l.isEmpty

/-- Lookup of a string key in a JSON object. -/
def lookupS : List (String × J) → String → Option J
  | [], _ => none
  | (k, v) :: rest, key => if k == key then some v else lookupS rest key

/-- Lookup of a string key among the general keys of a runtime
dictionary. -/
def lookupJS : List (J × J) → String → Option J
  | [], _ => none
  | (k, v) :: rest, key =>
    match k with
    | .js s => if s == key then some v else lookupJS rest key
    | _ => lookupJS rest key

/-- Python data.get(key, default): an AttributeError when the value
is not a dictionary. -/
def jGet (j : J) (k : String) (dflt : J) : Except PyErr J :=
  match j with
  | .jo fields => .ok ((lookupS fields k).getD dflt)
  | .pdict l => .ok ((lookupJS l k).getD dflt)
  | _ => .error .attrError

/-- Python subscription c[key] for a string key: KeyError when the
key is missing, TypeError when the value is not subscriptable this
way. -/
def jItem (j : J) (k : String) : Except PyErr J :=
  match j with
  | .jo fields =>
    match lookupS fields k with
    | some v => .ok v
    | none => .error .keyError
  | _ => .error .typeError

/-- Python iteration `for c in x`: the elements of a list, the keys
of a dictionary, the one-character strings of a string, and a
TypeError otherwise. -/
def jIter : J → Except PyErr (List J)
  | .ja l => .ok l
  | .jo fields => .ok (fields.map (fun p => .js p.1))
  | .pdict l => .ok (l.map (fun p => p.1))
  | .js s => .ok (s.data.map (fun c => .js (String.mk [c])))
  | _ => .error .typeError

/-- Hashability of a JSON value as a Python dict key: lists and
dictionaries are unhashable. -/
def hashableJ : J → Bool
  | .ja _ => false
  | .jo _ => false
  | .pdict _ => false
  | _ => true

/-- The dict comprehension of _load_cookies over the browser cookie
list: for each entry the name and value subscriptions are evaluated
(KeyError propagates, and is caught by the caller), then the pair is
inserted, raising TypeError on an unhashable key. -/
def buildCookieDict : List J → Except PyErr (List (J × J))
  | [] => .ok []
  | c :: rest =>
    match jItem c "name" with
    | .error e => .error e
    | .ok n =>
      match jItem c "value" with
      | .error e => .error e
      | .ok v =>
        if hashableJ n then
          match buildCookieDict rest with
          | .error e => .error e
          | .ok tail => .ok ((n, v) :: tail)
        else
          .error .typeError

/-- The browser-state fallback half of _load_cookies (client.py lines
78-88), entered with the current cookie value.  The outer option of
the argument is file existence, the inner one the outcome of
json.loads.  A JSON decode error or a KeyError is caught and leads to
the final return False; other errors propagate. -/
def loadBrowserState (browserF : Option (Option J)) (cur : J) :
    Except PyErr (Bool × J) :=
  match browserF with
  | some (some d) =>
    match jGet d "cookies" (.ja []) with
    | .error e => .error e
    | .ok bc =>
      match jIter bc with
      | .error e => .error e
      | .ok items =>
        match buildCookieDict items with
        | .error .keyError => .ok (false, cur)
        | .error e => .error e
        | .ok pairs =>
          if (J.pdict pairs) |> jTruthy then .ok (true, .pdict pairs)
          else .ok (false, .pdict pairs)
  | some none => .ok (false, cur)
  | none => .ok (false, cur)

/-- client.py _load_cookies (lines 66-88).  The first argument is the
cookie cache file (outer option: existence, inner option: json.loads
outcome), the second the browser-state snapshot file.  The result
pairs the returned Bool with the final value of self.cookies, which
starts as the empty dict. -/
def loadCookies (stateF browserF : Option (Option J)) :
    Except PyErr (Bool × J) :=
  match stateF with
  | some (some d) =>
    match jGet d "cookies" (.pdict []) with
    | .error e => .error e
    | .ok ck =>
      if jTruthy ck then .ok (true, ck) else loadBrowserState browserF ck
  | some none => loadBrowserState browserF (.pdict [])
  | none => loadBrowserState browserF (.pdict [])

/-- Shape condition on the cookie cache file under which _load_cookies
cannot raise: the file is missing, fails to parse, or parses to an
object whose cookies entry, when present, is itself an object. -/
def stateShapeOk : Option (Option J) → Bool
  | none => true
  | some none => true
  | some (some (J.jo fields)) =>
    match lookupS fields "cookies" with
    | none => true
    | some (J.jo _) => true
    | some _ => false
  | some (some _) => false

/-- Shape condition on one browser cookie entry: a dictionary whose
name value, when present, is hashable. -/
def entryOk : J → Bool
  | .jo fields =>
    match lookupS fields "name" with
    | some v => hashableJ v
    | none => true
  | _ => false

/-- Shape condition on the browser-state file under which
_load_cookies cannot raise: missing, unparseable, or an object whose
cookies entry, when present, is a list of acceptable entries. -/
def browserShapeOk : Option (Option J) → Bool
  | none => true
  | some none => true
  | some (some (J.jo fields)) =>
    match lookupS fields "cookies" with
    | none => true
    | some (J.ja items) => items.all entryOk
    | some _ => false
  | some (some _) => false

/-! Helper lemmas about the row loop and the status chains. -/

theorem rowLoop_eq_kept (f : Nat → ρ → Option α) (rows : List ρ) (n : Nat) :
    rowLoop f rows n = (rowLoopKept f rows n).map (fun t => t.2.2) := by
  induction rows generalizing n with
  | nil => rfl
  | cons r rs ih =>
    simp only [rowLoop, rowLoopKept]
    cases f n r <;> simp [ih]

theorem rowLoopKept_rows_sublist (f : Nat → ρ → Option α) (rows : List ρ)
    (n : Nat) : List.Sublist ((rowLoopKept f rows n).map (fun t => t.2.1)) rows := by
  induction rows generalizing n with
  | nil => simp [rowLoopKept]
  | cons r rs ih =>
    simp only [rowLoopKept]
    cases f n r with
    | none => exact (ih n).cons r
    | some a => simpa using (ih (n + 1)).cons₂ r

theorem rowLoopKept_extracted (f : Nat → ρ → Option α) (rows : List ρ)
    (n : Nat) :
    List.Forall (fun t => f t.1 t.2.1 = some t.2.2) (rowLoopKept f rows n) := by
  induction rows generalizing n with
  | nil => simp [rowLoopKept]
  | cons r rs ih =>
    simp only [rowLoopKept]
    cases h : f n r with
    | none => exact ih n
    | some a => exact (List.forall_cons _ _ _).mpr ⟨h, ih (n + 1)⟩

theorem rowLoop_total_length (g : Nat → ρ → α) (rows : List ρ) (n : Nat) :
    (rowLoop (fun k r => some (g k r)) rows n).length = rows.length := by
  induction rows generalizing n with
  | nil => rfl
  | cons r rs ih => simp [rowLoop, ih]

theorem firstSome_eq_none {L : List (Option α)} (h : ∀ x ∈ L, x = none) :
    firstSome L = none := by
  induction L with
  | nil => rfl
  | cons a rest ih =>
    have ha := h a (by simp)
    subst ha
    exact ih (fun x hx => h x (by simp [hx]))

theorem holdStatusAjax_cases (t : String) :
    holdStatusAjax t = "available" ∨ holdStatusAjax t = "in_transit"
    ∨ holdStatusAjax t = "suspended" ∨ holdStatusAjax t = "pending" := by
  unfold holdStatusAjax
  dsimp only
  split_ifs <;> simp

theorem holdStatusPage_cases (t : String) :
    holdStatusPage t = "available" ∨ holdStatusPage t = "in_transit"
    ∨ holdStatusPage t = "suspended" ∨ holdStatusPage t = "expired"
    ∨ holdStatusPage t = "pending" := by
  unfold holdStatusPage
  dsimp only
  split_ifs <;> simp

/-! Claim theorems. -/

/-- Claim C1 counterexample: the claim requires every holds extraction
path to map text containing "expired" to the status "expired", but
the AJAX-HTML path (parse_holds_html) and the JSON items path of
get_holds have no expired branch and map the status text "Expired" to
"pending", while the spec mapping yields "expired". -/
theorem c1_counterexample :
    (parse_holds_html [{ statusText := some "Expired" }]).map Hold.status
      = ["pending"]
    ∧ (get_holds_ajax [{ status := some "Expired" }] none).map Hold.status
      = ["pending"]
    ∧ specHoldStatus "Expired" = "expired"
    ∧ holdStatusAjax "Expired" ≠ specHoldStatus "Expired" :=
  ⟨rfl, rfl, rfl, by decide⟩

/-- Claim C1 (amended): the hold status is derived deterministically
from the free-text status by the stated precedence, but the expired
branch exists only in the full-page path (parse_holds_page); the
AJAX-HTML path and the JSON items path apply the same precedence
without an expired branch, so text whose spec mapping would be
"expired" falls through to "pending" there.  The last three conjuncts
tie the three mapping functions to their extraction paths. -/
theorem c1_amended_status_precedence :
    ∀ raw : String,
      holdStatusPage raw = specHoldStatus raw
      ∧ holdStatusAjax raw = holdStatusJson raw
      ∧ holdStatusJson raw =
          (if specHoldStatus raw = "expired" then "pending"
           else specHoldStatus raw)
      ∧ (parse_holds_html [{ statusText := some raw }]).map Hold.status
          = [holdStatusAjax raw]
      ∧ (parse_holds_page [{ labels := [("Status", some raw)] }]).map Hold.status
          = [holdStatusPage raw]
      ∧ (get_holds_ajax [{ status := some raw }] none).map Hold.status
          = [holdStatusJson raw] := by
  intro raw
  refine ⟨rfl, rfl, ?_, rfl, rfl, rfl⟩
  unfold holdStatusJson specHoldStatus
  dsimp only
  split_ifs <;> simp_all

/-- Claim C2: every extraction function is a total row loop.  The
generic part states that, for any per-row extractor that can fail,
the loop yields exactly the successfully extracted records in source
order (the kept rows form a sublist of the input, in order, and each
kept row extracted successfully); the remaining conjuncts instantiate
the five extraction functions: an empty row list yields the empty
list, and since the translated per-row bodies cannot raise, each
function yields exactly one record per row. -/
theorem c2_extraction_skips_and_preserves_order :
    (∀ (ρ α : Type) (f : Nat → ρ → Option α) (rows : List ρ) (n : Nat),
        rowLoop f rows n = (rowLoopKept f rows n).map (fun t => t.2.2)
        ∧ List.Sublist ((rowLoopKept f rows n).map (fun t => t.2.1)) rows
        ∧ List.Forall (fun t => f t.1 t.2.1 = some t.2.2)
            (rowLoopKept f rows n))
    ∧ parse_checkouts_html [] = []
    ∧ parse_holds_html [] = []
    ∧ parse_search_results_html [] = []
    ∧ parse_checkouts_page [] = []
    ∧ parse_holds_page [] = []
    ∧ (∀ rows : List CheckoutRowA,
        (parse_checkouts_html rows).length = rows.length)
    ∧ (∀ rows : List HoldRowA, (parse_holds_html rows).length = rows.length)
    ∧ (∀ rows : List SearchRow,
        (parse_search_results_html rows).length = rows.length)
    ∧ (∀ rows : List CheckoutRowP,
        (parse_checkouts_page rows).length = rows.length)
    ∧ (∀ rows : List HoldRowP, (parse_holds_page rows).length = rows.length) := by
  refine ⟨fun ρ α f rows n =>
      ⟨rowLoop_eq_kept f rows n, rowLoopKept_rows_sublist f rows n,
       rowLoopKept_extracted f rows n⟩,
    rfl, rfl, rfl, rfl, rfl, ?_, ?_, ?_, ?_, ?_⟩
  · exact fun rows => rowLoop_total_length extractCheckoutACore rows 0
  · exact fun rows => rowLoop_total_length extractHoldACore rows 0
  · exact fun rows => rowLoop_total_length extractSearchCore rows 0
  · exact fun rows => rowLoop_total_length extractCheckoutPCore rows 0
  · exact fun rows => rowLoop_total_length extractHoldPCore rows 0

/-- Claim C3 counterexample: on the JSON items path of get_holds, a
payload whose status field is "suspended" but that carries no frozen
field produces a hold with status "suspended" and is_frozen false,
contradicting the claim that is_frozen is true whenever the derived
status is suspended on every extraction path. -/
theorem c3_counterexample :
    (extractHoldJson { status := some "suspended" }).status = "suspended"
    ∧ (extractHoldJson { status := some "suspended" }).is_frozen = false
    ∧ (get_holds_ajax [{ status := some "suspended" }] none).map Hold.is_frozen
      = [false]
    ∧ (get_holds_ajax [{ status := some "suspended" }] none).map Hold.status
      = ["suspended"] :=
  ⟨rfl, rfl, rfl, rfl⟩

/-- Claim C3 (amended): on the two HTML extraction paths, is_frozen
equals (status is suspended) or the explicit freeze indicator; on the
JSON items path of get_holds, is_frozen is taken from the frozen
field alone (default false), independently of the derived status. -/
theorem c3_amended_frozen_invariant :
    (∀ (n : Nat) (row : HoldRowA),
        (extractHoldACore n row).is_frozen
          = (((extractHoldACore n row).status == "suspended")
            || row.frozenElem))
    ∧ (∀ (n : Nat) (row : HoldRowP),
        (extractHoldPCore n row).is_frozen
          = (((extractHoldPCore n row).status == "suspended")
            || row.frozenElem))
    ∧ (∀ it : HoldItem, (extractHoldJson it).is_frozen = it.frozen.getD false) := by
  refine ⟨?_, ?_, fun it => rfl⟩
  · intro n row
    simp only [extractHoldACore]
    cases hs : row.statusText with
    | none => rfl
    | some t =>
      dsimp only
      rcases holdStatusAjax_cases t with h | h | h | h <;> rw [h] <;> rfl
  · intro n row
    simp only [extractHoldPCore]
    cases hs : findLabelFirst ["status"] row.labels with
    | none => rfl
    | some v =>
      cases v with
      | none => rfl
      | some t =>
        dsimp only
        rcases holdStatusPage_cases t with h | h | h | h | h <;> rw [h] <;> rfl

/-- Claim C4 counterexample: on a page whose HTML signals the
anti-automation challenge, get_checkouts performs no challenge test:
it parses the page (here producing one checkout) and emits no
warning, while the claim requires an empty sequence with a warning
from both operations. -/
theorem c4_counterexample :
    isBlockedPage "cloudflare challenge" = true
    ∧ (get_checkouts_headless "cloudflare challenge"
        [{ titleText := some "T" }]).1.length = 1
    ∧ (get_checkouts_headless "cloudflare challenge"
        [{ titleText := some "T" }]).2 = false :=
  ⟨rfl, rfl, rfl⟩

/-- Claim C4 (amended): the blocked-page degradation (empty sequence
plus a stderr warning) is implemented only in get_holds; on an
unblocked page get_holds parses the rendered rows in source order,
and get_checkouts always parses the rendered rows with no challenge
test and no warning side channel. -/
theorem c4_amended_blocked_degradation :
    ∀ (html : String) (rowsH : List HoldRowP) (rowsC : List CheckoutRowP),
      (isBlockedPage html = true → get_holds_headless html rowsH = ([], true))
      ∧ (isBlockedPage html = false →
          get_holds_headless html rowsH = (parse_holds_page rowsH, false))
      ∧ get_checkouts_headless html rowsC = (parse_checkouts_page rowsC, false)
      ∧ (get_checkouts_headless html rowsC).2 = false := by
  intro html rowsH rowsC
  refine ⟨fun hb => ?_, fun hb => ?_, rfl, rfl⟩
  · simp [get_holds_headless, hb]
  · simp [get_holds_headless, hb]

/-- Witness for the amended claim C4 at a concrete blocked page and a
concrete unblocked page. -/
theorem c4_amended_witness :
    get_holds_headless "cloudflare challenge" [] = ([], true)
    ∧ get_holds_headless "plain page" [] = (parse_holds_page [], false) :=
  ⟨(c4_amended_blocked_degradation "cloudflare challenge" [] []).1 rfl,
   (c4_amended_blocked_degradation "plain page" [] []).2.1 rfl⟩

/-- Claim C5: renew_item consults the request channel only outside
replay mode (first conjunct: in replay mode the outcome is
independent of the request channel); a parseable request-channel
response is returned directly (second conjunct); when the request
channel failed, or always in replay mode, the browser fallback runs,
and when no renew control is found it returns the not-found failure
result instead of raising (last two conjuncts, one per mode).
Transport-level exceptions of the request channel are outside the
model; inside the browser fallback an exception is caught and
produces a failure result (third conjunct). -/
theorem c5_renew_item_fallback :
    (∀ (a a2 : Option AjaxRenewResp) (e : Option String) (b : Bool)
        (al : Option String),
        renew_item true a e b al = renew_item true a2 e b al)
    ∧ (∀ (d : AjaxRenewResp) (e : Option String) (b : Bool)
        (al : Option String),
        renew_item false (some d) e b al = renewFromAjax d)
    ∧ (∀ (h : Bool) (exnText : String) (b : Bool) (al : Option String),
        renew_item h none (some exnText) b al
          = { success := false, message := "Renewal failed: " ++ exnText,
              new_due_date := none })
    ∧ (∀ (a : Option AjaxRenewResp) (al : Option String),
        renew_item true a none false al
          = { success := false,
              message := "Could not find renew button for this item",
              new_due_date := none })
    ∧ (∀ al : Option String,
        renew_item false none none false al
          = { success := false,
              message := "Could not find renew button for this item",
              new_due_date := none }) :=
  ⟨fun _ _ _ _ _ => rfl, fun _ _ _ _ => rfl, fun h _ _ _ => by cases h <;> rfl,
   fun _ _ => rfl, fun _ => rfl⟩

/-- Claim C6 counterexample: the counters are taken from the payload
unchanged, so a payload carrying a negative count produces a negative
counter, contradicting the claim that no counter is ever negative for
any source payload; the same holds for a negative fines string. -/
theorem c6_counterexample :
    (get_account_summary_json { numCheckedOut := some (-1) }).num_checked_out
      = -1
    ∧ (get_account_summary_json { numCheckedOut := some (-1) }).num_checked_out
      < 0
    ∧ (get_account_summary_json
        { totalFines := some (.fstr "$-5.00") }).total_fines < 0 := by
  refine ⟨rfl, by decide, ?_⟩
  have h : pyFloat (stripDollarComma "$-5.00") = some (-500, 2, 0) := by decide
  simp [get_account_summary_json, coerceFines, normalize_fines, h, floatVal,
    tenPowZ]

/-- Claim C6 (amended): in every constructed AccountSummary each
counter defaults to 0 and total fines defaults to 0 when the source
omits them; the code performs no clamping, so the values are
non-negative exactly when the payload values supplied are
non-negative (and the fines value evaluates non-negatively). -/
theorem c6_amended_defaults_nonneg :
    ∀ d : SummaryData,
      (d.numCheckedOut = none →
        (get_account_summary_json d).num_checked_out = 0)
      ∧ (d.numOverdue = none → (get_account_summary_json d).num_overdue = 0)
      ∧ (d.numHolds = none → (get_account_summary_json d).num_holds = 0)
      ∧ (d.numAvailableHolds = none →
          (get_account_summary_json d).num_available_holds = 0)
      ∧ (d.totalFines = none → d.finesField = none →
          (get_account_summary_json d).total_fines = 0)
      ∧ (0 ≤ d.numCheckedOut.getD 0 →
          0 ≤ (get_account_summary_json d).num_checked_out)
      ∧ (0 ≤ d.numOverdue.getD 0 →
          0 ≤ (get_account_summary_json d).num_overdue)
      ∧ (0 ≤ d.numHolds.getD 0 → 0 ≤ (get_account_summary_json d).num_holds)
      ∧ (0 ≤ d.numAvailableHolds.getD 0 →
          0 ≤ (get_account_summary_json d).num_available_holds)
      ∧ (0 ≤ coerceFines (d.totalFines.getD (d.finesField.getD (.fnum 0))) →
          0 ≤ (get_account_summary_json d).total_fines) := by
  intro d
  refine ⟨fun h => ?_, fun h => ?_, fun h => ?_, fun h => ?_,
    fun h1 h2 => ?_, fun h => h, fun h => h, fun h => h, fun h => h,
    fun h => h⟩
  · simp [get_account_summary_json, h]
  · simp [get_account_summary_json, h]
  · simp [get_account_summary_json, h]
  · simp [get_account_summary_json, h]
  · simp [get_account_summary_json, h1, h2, coerceFines]

/-- Witness for the amended claim C6 at the empty payload and a
payload with non-negative values. -/
theorem c6_amended_witness :
    (get_account_summary_json {}).num_checked_out = 0
    ∧ (get_account_summary_json {}).total_fines = 0
    ∧ 0 ≤ (get_account_summary_json { numHolds := some 3 }).num_holds :=
  ⟨(c6_amended_defaults_nonneg {}).1 rfl,
   (c6_amended_defaults_nonneg {}).2.2.2.2.1 rfl rfl,
   (c6_amended_defaults_nonneg
      { numHolds := some 3 }).2.2.2.2.2.2.2.1 (by decide)⟩

/-- Claim C7: the four supported date spellings all parse to the
calendar date 2026-02-15, and a string matched by none of the
supported formats yields no date rather than an error. -/
theorem c7_parse_date_formats :
    parse_date (some "02/15/2026") = some { y := 2026, m := 2, d := 15 }
    ∧ parse_date (some "2026-02-15") = some { y := 2026, m := 2, d := 15 }
    ∧ parse_date (some "February 15, 2026")
      = some { y := 2026, m := 2, d := 15 }
    ∧ parse_date (some "Feb. 15, 2026") = some { y := 2026, m := 2, d := 15 }
    ∧ (∀ s : String,
        (∀ f ∈ dateFormats, tryFormat f (pyStrip s).data = none) →
        parse_date (some s) = none) := by
  refine ⟨rfl, rfl, rfl, rfl, ?_⟩
  intro s h
  simp only [parse_date]
  split_ifs with hs
  · rfl
  · refine firstSome_eq_none ?_
    intro x hx
    rcases List.mem_map.mp hx with ⟨f, hf, rfl⟩
    exact h f hf

/-- Witness for claim C7 at an unparseable string. -/
theorem c7_witness : parse_date (some "hello") = none :=
  c7_parse_date_formats.2.2.2.2 "hello" (by decide)

/-- Claim C8: fines normalization maps the three sample strings to
their numeric values with the dollar sign and separators stripped,
and any string whose cleaned form float() rejects normalizes to 0. -/
theorem c8_fines_normalization :
    normalize_fines "$5.00" = 5
    ∧ normalize_fines "5.00" = 5
    ∧ normalize_fines "$1,234.50" = 2469 / 2
    ∧ (∀ s : String,
        pyFloat (stripDollarComma s) = none → normalize_fines s = 0) := by
  refine ⟨?_, ?_, ?_, ?_⟩
  · have h : pyFloat (stripDollarComma "$5.00") = some (500, 2, 0) := by decide
    simp [normalize_fines, h, floatVal, tenPowZ]
    norm_num
  · have h : pyFloat (stripDollarComma "5.00") = some (500, 2, 0) := by decide
    simp [normalize_fines, h, floatVal, tenPowZ]
    norm_num
  · have h : pyFloat (stripDollarComma "$1,234.50") = some (123450, 2, 0) := by
      decide
    simp [normalize_fines, h, floatVal, tenPowZ]
    norm_num
  · intro s h
    simp [normalize_fines, h]

/-- Witness for claim C8 at an unparseable fines string. -/
theorem c8_witness : normalize_fines "abc" = 0 :=
  c8_fines_normalization.2.2.2 "abc" (by decide)

/-- Claim C9: search returns at most limit results, the returned list
is a prefix of the full list extracted from the results page, and the
truncation is a slice applied after full extraction. -/
theorem c9_search_limit :
    ∀ (rows : List SearchRow) (limit : Nat),
      (client_search rows limit).length ≤ limit
      ∧ client_search rows limit <+: parse_search_results_html rows
      ∧ client_search rows limit = (parse_search_results_html rows).take limit := by
  intro rows limit
  refine ⟨?_, ⟨(parse_search_results_html rows).drop limit,
    List.take_append_drop limit _⟩, rfl⟩
  have h : (client_search rows limit).length
      = min limit (parse_search_results_html rows).length := by
    simp [client_search]
  omega

/-- On a browser cookie list of acceptable entries, the dict
comprehension either raises a KeyError (which the caller catches) or
succeeds. -/
theorem buildCookieDict_cases (items : List J) (h : items.all entryOk = true) :
    buildCookieDict items = .error .keyError
    ∨ ∃ pairs, buildCookieDict items = .ok pairs := by
  induction items with
  | nil => exact Or.inr ⟨[], rfl⟩
  | cons c rest ih =>
    rw [List.all_cons, Bool.and_eq_true] at h
    obtain ⟨h1, h2⟩ := h
    cases c with
    | jo fields =>
      cases hn : lookupS fields "name" with
      | none =>
        left
        simp [buildCookieDict, jItem, hn]
      | some nv =>
        have hh : hashableJ nv = true := by simpa [entryOk, hn] using h1
        cases hv : lookupS fields "value" with
        | none =>
          left
          simp [buildCookieDict, jItem, hn, hv]
        | some vv =>
          rcases ih h2 with he | ⟨pairs, hp⟩
          · left
            simp [buildCookieDict, jItem, hn, hv, hh, he]
          · right
            exact ⟨(nv, vv) :: pairs,
              by simp [buildCookieDict, jItem, hn, hv, hh, hp]⟩
    | null => simp [entryOk] at h1
    | jb b => simp [entryOk] at h1
    | jn n => simp [entryOk] at h1
    | js s => simp [entryOk] at h1
    | ja l => simp [entryOk] at h1
    | pdict l => simp [entryOk] at h1

/-- Under the browser-state shape condition, and entered with a falsy
current cookie value, the fallback half of _load_cookies returns
normally, and returns True exactly when the final cookie value is
truthy (non-empty). -/
theorem loadBrowserState_ok (b : Option (Option J)) (cur : J)
    (hb : browserShapeOk b = true) (hcur : jTruthy cur = false) :
    ∃ r ck, loadBrowserState b cur = .ok (r, ck)
      ∧ (r = true ↔ jTruthy ck = true) := by
  match b with
  | none => exact ⟨false, cur, rfl, by simp [hcur]⟩
  | some none => exact ⟨false, cur, rfl, by simp [hcur]⟩
  | some (some d) =>
    cases d with
    | jo fields =>
      cases hc : lookupS fields "cookies" with
      | none =>
        refine ⟨false, .pdict [], ?_, by simp [jTruthy]⟩
        simp [loadBrowserState, jGet, hc, jIter, buildCookieDict, jTruthy]
      | some cv =>
        cases cv with
        | ja items =>
          have hall : items.all entryOk = true := by
            simpa [browserShapeOk, hc] using hb
          rcases buildCookieDict_cases items hall with he | ⟨pairs, hp⟩
          · refine ⟨false, cur, ?_, by simp [hcur]⟩
            simp [loadBrowserState, jGet, hc, jIter, he]
          · by_cases hj : jTruthy (J.pdict pairs) = true
            · exact ⟨true, .pdict pairs,
                by simp [loadBrowserState, jGet, hc, jIter, hp, hj],
                by simp [hj]⟩
            · have hj2 : jTruthy (J.pdict pairs) = false := by
                simpa using hj
              exact ⟨false, .pdict pairs,
                by simp [loadBrowserState, jGet, hc, jIter, hp, hj2],
                by simp [hj2]⟩
        | null => simp [browserShapeOk, hc] at hb
        | jb bb => simp [browserShapeOk, hc] at hb
        | jn n => simp [browserShapeOk, hc] at hb
        | js s => simp [browserShapeOk, hc] at hb
        | jo g => simp [browserShapeOk, hc] at hb
        | pdict g => simp [browserShapeOk, hc] at hb
    | null => simp [browserShapeOk] at hb
    | jb bb => simp [browserShapeOk] at hb
    | jn n => simp [browserShapeOk] at hb
    | js s => simp [browserShapeOk] at hb
    | ja l => simp [browserShapeOk] at hb
    | pdict l => simp [browserShapeOk] at hb

/-- Claim C10 counterexample: a cookie cache file whose content is
valid JSON but not an object (here the array "[]") makes
_load_cookies raise an AttributeError on data.get, which its except
clauses do not catch; content that fails JSON parsing, by contrast,
is caught (second conjunct). -/
theorem c10_counterexample :
    loadCookies (some (some (J.ja []))) none = .error .attrError
    ∧ loadCookies (some none) none = .ok (false, .pdict []) :=
  ⟨rfl, rfl⟩

/-- Claim C10 (amended): when each file is missing, fails JSON
parsing, or parses to an object of the expected shape (its cookies
entry an object for the cache file, a list of dictionary entries with
hashable names for the browser-state file), _load_cookies returns
normally, falling back to the browser-state snapshot as claimed, and
returns True exactly when the cookie set it ended up with is
non-empty; valid-JSON content of a different shape can raise, as the
counterexample shows. -/
theorem c10_amended_load_cookies :
    ∀ (s b : Option (Option J)),
      stateShapeOk s = true → browserShapeOk b = true →
      ∃ r ck, loadCookies s b = .ok (r, ck)
        ∧ (r = true ↔ jTruthy ck = true) := by
  intro s b hs hb
  match s with
  | none => exact loadBrowserState_ok b (.pdict []) hb rfl
  | some none => exact loadBrowserState_ok b (.pdict []) hb rfl
  | some (some d) =>
    cases d with
    | jo fields =>
      cases hc : lookupS fields "cookies" with
      | none =>
        have h := loadBrowserState_ok b (.pdict []) hb rfl
        simpa [loadCookies, jGet, hc, jTruthy] using h
      | some cv =>
        cases cv with
        | jo cfields =>
          by_cases hj : jTruthy (J.jo cfields) = true
          · exact ⟨true, .jo cfields, by simp [loadCookies, jGet, hc, hj],
              by simp [hj]⟩
          · have hj2 : jTruthy (J.jo cfields) = false := by simpa using hj
            have h := loadBrowserState_ok b (.jo cfields) hb hj2
            simpa [loadCookies, jGet, hc, hj2] using h
        | null => simp [stateShapeOk, hc] at hs
        | jb bb => simp [stateShapeOk, hc] at hs
        | jn n => simp [stateShapeOk, hc] at hs
        | js ss => simp [stateShapeOk, hc] at hs
        | ja l => simp [stateShapeOk, hc] at hs
        | pdict l => simp [stateShapeOk, hc] at hs
    | null => simp [stateShapeOk] at hs
    | jb bb => simp [stateShapeOk] at hs
    | jn n => simp [stateShapeOk] at hs
    | js ss => simp [stateShapeOk] at hs
    | ja l => simp [stateShapeOk] at hs
    | pdict l => simp [stateShapeOk] at hs

/-- Witness for the amended claim C10: a cache file holding one
cookie, no browser file. -/
theorem c10_amended_witness :
    stateShapeOk (some (some (J.jo [("cookies", J.jo [("a", J.js "b")])])))
      = true
    ∧ browserShapeOk none = true
    ∧ ∃ r ck,
        loadCookies (some (some (J.jo [("cookies", J.jo [("a", J.js "b")])])))
          none = .ok (r, ck)
        ∧ (r = true ↔ jTruthy ck = true) :=
  ⟨rfl, rfl,
   c10_amended_load_cookies
     (some (some (J.jo [("cookies", J.jo [("a", J.js "b")])]))) none rfl rfl⟩
